import Mathlib

/-!
Verification of the OPAQUE implementation (eagraf/opaque).

Byte strings are modelled as `List Nat` (each entry one byte). Cryptographic
collaborators (HKDF-Expand, hash functions, group arithmetic, registries of
available primitives) are passed as explicit function parameters, so theorems
quantify over every possible collaborator behaviour. Definitions are
translated from the Go sources; definitions translated from the prose of the
specification (for repository code not present in the source tree) say so in
their doc comment.
-/

namespace OpaqueProtocol

/-- ASCII bytes of a string literal. -/
def strToBytes (s : String) : List Nat :=
  s.data.map Char.toNat

/-- Modelled from the spec: `internal.Xor` is not in the source tree; the spec
says masking is a plain XOR of two equal-length byte strings
(`masked_response = credential_response_pad XOR (pks || record.envelope)`). -/
def xorBytes (a b : List Nat) : List Nat :=
  List.zipWith Nat.xor a b

/-- Modelled from the spec: `I2OSP(n, 2)` from `internal/encoding` (not in the
source tree) is the big-endian 2-byte encoding of `n`; the spec says it fails
for `n ≥ 65536`, and every use below is guarded by `n ≤ 65535`, where the
truncation `% 256` is the identity on the high byte. -/
def i2osp2 (n : Nat) : List Nat :=
  [n / 256 % 256, n % 256]

/-- Modelled from the spec: `EncodeVector(v) = I2OSP(len(v), 2) || v`
(`internal/encoding` is not in the source tree). -/
def encodeVector (v : List Nat) : List Nat :=
  i2osp2 v.length ++ v

/-- Modelled from the spec: `DecodeVector` from `internal/encoding` (not in the
source tree) reads the 2-byte big-endian length, requires at least that many
further bytes, and returns the vector together with the number of bytes
consumed. -/
def decodeVector (input : List Nat) : Option (List Nat × Nat) :=
  match input with
  | b0 :: b1 :: rest =>
    let len := b0 * 256 + b1
    if rest.length < len then none
    else some (rest.take len, 2 + len)
  | _ => none

/-! Section: Key schedule (`internal/core.go`)

`hash.Hash` collaborator operations are abstracted: `expand` stands for
`h.HKDFExpand(secret, info, length)` and `hashF` for `h.Hash(0, transcript)`.
-/

/-- Model of `buildLabel` from `core.go`: `[]byte(labelPrefix + label)` with
`labelPrefix = "OPAQUE"`. -/
def buildLabel (label : List Nat) : List Nat :=
  strToBytes "OPAQUE" ++ label

/-- Model of `hkdfExpandLabel` from `core.go`: calls
`hkdfExpand(h, secret, buildLabel(label), length)`, i.e. passes
`buildLabel(label)` as the info argument of `h.HKDFExpand`; the `context`
parameter is not used. -/
def hkdfExpandLabel (expand : List Nat → List Nat → Nat → List Nat)
    (secret context : List Nat) (label : List Nat) (length : Nat) : List Nat :=
  expand secret (buildLabel label) length

/-- Model of `deriveSecret` from `core.go`:
`hkdfExpandLabel(h, secret, h.Hash(0, transcript), label, h.OutputSize())`. -/
def deriveSecret (expand : List Nat → List Nat → Nat → List Nat)
    (hashF : List Nat → List Nat) (outputSize : Nat)
    (secret transcript : List Nat) (label : List Nat) : List Nat :=
  hkdfExpandLabel expand secret (hashF transcript) label outputSize

/-- Model of `keySchedule` from `core.go`: handshake and session secrets via
`deriveSecret` with the tags `"handshake secret"` and `"session secret"`. -/
def keySchedule (expand : List Nat → List Nat → Nat → List Nat)
    (hashF : List Nat → List Nat) (outputSize : Nat)
    (ikm info : List Nat) : List Nat × List Nat :=
  (deriveSecret expand hashF outputSize ikm info (strToBytes "handshake secret"),
   deriveSecret expand hashF outputSize ikm info (strToBytes "session secret"))

/-- Model of `macKeys` from `core.go`: `km2`/`km3` via `hkdfExpandLabel` with empty
context, the tags `"server mac"`/`"client mac"`, and `h.OutputSize()`. -/
def macKeys (expand : List Nat → List Nat → Nat → List Nat)
    (outputSize : Nat) (handshakeSecret : List Nat) : List Nat × List Nat :=
  (hkdfExpandLabel expand handshakeSecret [] (strToBytes "server mac") outputSize,
   hkdfExpandLabel expand handshakeSecret [] (strToBytes "client mac") outputSize)

/-- The info string that the specification's
`HKDF-Expand-Label(prk, label, context, L)` passes to `HKDF-Expand`:
`I2OSP(L,2) || EncodeVector("OPAQUE-" || label) || EncodeVector(context)`.
This follows the spec's words, to be compared with `hkdfExpandLabel`. -/
def specHkdfExpandLabelInfo (length : Nat) (label context : List Nat) : List Nat :=
  i2osp2 length ++ encodeVector (strToBytes "OPAQUE-" ++ label) ++ encodeVector context

/-! Section: Wire messages and deserializers (`internal/configuration.go`) -/

/-- Go slice `l[a:b]`. -/
def slice (l : List Nat) (a b : Nat) : List Nat :=
  (l.take b).drop a

/-- Model of `internal.NonceLength`. -/
def nonceLength : Nat := 32

/-- The size-relevant fields of `internal.Parameters`; the `KDF`, `MAC`,
`Hash`, `MHF` collaborators are abstracted to their output sizes. -/
structure Parameters where
  nonceLen : Nat
  envelopeSize : Nat
  oprfPointLength : Nat
  akePointLength : Nat
  hashSize : Nat
  macSize : Nat
  context : List Nat
deriving DecidableEq

inductive ProtoError where
  | invalidMessageLength
deriving DecidableEq

structure RegistrationRequest where
  data : List Nat
deriving DecidableEq

structure RegistrationResponse where
  data : List Nat
  pks : List Nat
deriving DecidableEq

structure RegistrationRecord where
  publicKey : List Nat
  maskingKey : List Nat
  envelope : List Nat
deriving DecidableEq

structure CredentialRequest where
  data : List Nat
deriving DecidableEq

structure CredentialResponse where
  data : List Nat
  maskingNonce : List Nat
  maskedResponse : List Nat
deriving DecidableEq

structure KE1 where
  credentialRequest : CredentialRequest
  nonceU : List Nat
  epkU : List Nat
deriving DecidableEq

structure KE2 where
  credentialResponse : CredentialResponse
  nonceS : List Nat
  epkS : List Nat
  mac : List Nat
deriving DecidableEq

structure KE3 where
  mac : List Nat
deriving DecidableEq

/-- Model of `Parameters.DeserializeRegistrationRequest`. -/
def deserializeRegistrationRequest (p : Parameters) (input : List Nat) :
    Except ProtoError RegistrationRequest :=
  if input.length ≠ p.oprfPointLength then .error .invalidMessageLength
  else .ok ⟨input⟩

/-- Model of `Parameters.DeserializeRegistrationResponse`. -/
def deserializeRegistrationResponse (p : Parameters) (input : List Nat) :
    Except ProtoError RegistrationResponse :=
  if input.length ≠ p.oprfPointLength + p.akePointLength then .error .invalidMessageLength
  else .ok ⟨input.take p.oprfPointLength, input.drop p.oprfPointLength⟩

/-- Model of `Parameters.DeserializeRegistrationRecord`. -/
def deserializeRegistrationRecord (p : Parameters) (input : List Nat) :
    Except ProtoError RegistrationRecord :=
  if input.length ≠ p.akePointLength + p.hashSize + p.envelopeSize then
    .error .invalidMessageLength
  else
    .ok ⟨input.take p.akePointLength,
         slice input p.akePointLength (p.akePointLength + p.hashSize),
         input.drop (p.akePointLength + p.hashSize)⟩

/-- Model of `Parameters.deserializeCredentialRequest`. -/
def deserializeCredentialRequest (p : Parameters) (input : List Nat) : CredentialRequest :=
  ⟨input.take p.oprfPointLength⟩

/-- Model of `Parameters.deserializeCredentialResponse`. -/
def deserializeCredentialResponse (p : Parameters) (input : List Nat)
    (maxResponseLength : Nat) : CredentialResponse :=
  ⟨input.take p.oprfPointLength,
   slice input p.oprfPointLength (p.oprfPointLength + p.nonceLen),
   slice input (p.oprfPointLength + p.nonceLen) maxResponseLength⟩

/-- Model of `Parameters.DeserializeKE1`. -/
def deserializeKE1 (p : Parameters) (input : List Nat) : Except ProtoError KE1 :=
  if input.length ≠ p.oprfPointLength + p.nonceLen + p.akePointLength then
    .error .invalidMessageLength
  else
    .ok ⟨deserializeCredentialRequest p (input.take p.oprfPointLength),
         slice input p.oprfPointLength (p.oprfPointLength + p.nonceLen),
         input.drop (p.oprfPointLength + p.nonceLen)⟩

/-- Model of `Parameters.DeserializeKE2`. -/
def deserializeKE2 (p : Parameters) (input : List Nat) : Except ProtoError KE2 :=
  let maxResponseLength := p.oprfPointLength + p.nonceLen + p.akePointLength + p.envelopeSize
  if input.length ≠ maxResponseLength + p.nonceLen + p.akePointLength + p.macSize then
    .error .invalidMessageLength
  else
    .ok ⟨deserializeCredentialResponse p input maxResponseLength,
         slice input maxResponseLength (maxResponseLength + p.nonceLen),
         slice input (maxResponseLength + p.nonceLen)
           (maxResponseLength + p.nonceLen + p.akePointLength),
         input.drop (maxResponseLength + p.nonceLen + p.akePointLength)⟩

/-- Model of `Parameters.DeserializeKE3`. -/
def deserializeKE3 (p : Parameters) (input : List Nat) : Except ProtoError KE3 :=
  if input.length ≠ p.macSize then .error .invalidMessageLength
  else .ok ⟨input⟩

/-! Section: Credential-response masking -/

/-- Model of `Parameters.MaskResponse` from `configuration.go`: XOR with the pad
`KDF.Expand(key, nonce || "CredentialResponsePad", PointLength[Group] + EnvelopeSize)`.
`expand` abstracts `p.KDF.Expand`. -/
def maskResponse (expand : List Nat → List Nat → Nat → List Nat)
    (p : Parameters) (key nonce input : List Nat) : List Nat :=
  xorBytes
    (expand key (nonce ++ strToBytes "CredentialResponsePad")
      (p.akePointLength + p.envelopeSize))
    input

/-- The unmasking steps of `Client.AuthenticationFinalize`: recompute the pad
`Expand(maskingKey, maskingNonce || "CredentialResponsePad", Np + Ne)`, XOR
with the masked response, split into `pks` and the envelope bytes. -/
def clientUnmask (expand : List Nat → List Nat → Nat → List Nat)
    (pointLen envSize : Nat)
    (maskingKey maskingNonce maskedResponse : List Nat) : List Nat × List Nat :=
  let crPad := expand maskingKey (maskingNonce ++ strToBytes "CredentialResponsePad")
    (pointLen + envSize)
  let clear := xorBytes crPad maskedResponse
  (clear.take pointLen, clear.drop pointLen)

/-! Section: Identity defaulting -/

/-- The identity selection of `Metadata.Fill` (`core.go`): in
`CustomIdentifier` mode the credentials' identities overwrite the metadata
fields; a `nil` client identity then defaults to `pku` and a `nil` server
identity to `creds.ServerPublicKey()`. -/
def fillIdentities (customIdentifier : Bool)
    (credsIdu credsIds mIdu mIds : Option (List Nat))
    (pku serverPublicKey : List Nat) : List Nat × List Nat :=
  let idu := if customIdentifier then credsIdu else mIdu
  let ids := if customIdentifier then credsIds else mIds
  (idu.getD pku, ids.getD serverPublicKey)

/-- The identity defaulting of `Client.AuthenticationFinalize`: `nil` `idc`
defaults to the recovered `pkc`, `nil` `ids` to the unmasked `pks`. -/
def clientFinalizeIdentities (idc ids : Option (List Nat))
    (pkc pks : List Nat) : List Nat × List Nat :=
  (idc.getD pkc, ids.getD pks)

/-! Section: `Ciphersuite.DeriveKey` retry loop (`internal/oprf/oprf.go`) -/

/-- The retry loop of `Ciphersuite.DeriveKey`, fuelled. `hashToScalar c`
abstracts `HashToScalar(concat(deriveInput, []byte{c}), dst)` as a function of
the counter byte (`deriveInput` and `dst` are fixed for a run); the scalar `0`
is the zero scalar (`IsZero`), `s = none` is the initial `nil` scalar. The
counter is a Go `uint8`, so incrementing wraps modulo 256. Results:
`some (some k)` = the loop returns scalar `k`; `some none` = the
`panic("DeriveKeyPairError")` branch; `none` = still looping after `fuel`
iterations. -/
def deriveKeyRun (hashToScalar : Nat → Nat) :
    Nat → Nat → Option Nat → Option (Option Nat)
  | 0, _, _ => none
  | fuel + 1, counter, s =>
    if s = none ∨ s = some 0 then
      if 255 < counter then some none
      else deriveKeyRun hashToScalar fuel ((counter + 1) % 256) (some (hashToScalar counter))
    else some s

/-- Model of `Ciphersuite.DeriveKey` starts the loop with a zero counter and a `nil`
scalar. -/
def deriveKey (hashToScalar : Nat → Nat) (fuel : Nat) : Option (Option Nat) :=
  deriveKeyRun hashToScalar fuel 0 none

/-! Section: Server-side 3DH (`ake/tripledh`) -/

/-- Abstract prime-order group collaborator: decoding of scalars and elements
(`nil` on invalid encodings), scalar multiplication `mult s e = s · e`, and
canonical byte encoding of elements. -/
structure GroupModel where
  decodeScalar : List Nat → Option Nat
  decodeElement : List Nat → Option Nat
  mult : Nat → Nat → Nat
  bytes : Nat → List Nat

/-- Model of `serverK3dh` from `ake/tripledh`: decode `sk`, `epku`, `pku`, then
concatenate `e1 = epk.Mult(Esk)`, `e2 = epk.Mult(sks)`, `e3 = gpk.Mult(Esk)`.
`esk` is `core.Esk`. -/
def serverK3dh (G : GroupModel) (esk : Nat) (sk epku pku : List Nat) :
    Option (List Nat) :=
  match G.decodeScalar sk with
  | none => none
  | some sks =>
    match G.decodeElement epku with
    | none => none
    | some epk =>
      match G.decodeElement pku with
      | none => none
      | some gpk =>
        some (G.bytes (G.mult esk epk) ++ G.bytes (G.mult sks epk) ++
          G.bytes (G.mult esk gpk))

/-! Section: Configuration (`opaque.go` / `configuration.go` facade) -/

/-- The `Configuration` structure: six primitive identifiers and the optional
context. `oprf`, `ake` are Go `byte`s, `ksf` a `ksf.Identifier`, and `kdf`,
`mac`, `hash` are `crypto.Hash` values; all are modelled as `Nat` and the
single-byte casts of `Serialize` truncate modulo 256. -/
structure Configuration where
  oprf : Nat
  kdf : Nat
  mac : Nat
  hash : Nat
  ksf : Nat
  ake : Nat
  context : List Nat
deriving DecidableEq

inductive ConfigError where
  | invalidKDFid
  | invalidMACid
  | invalidHASHid
  | invalidKSFid
  | invalidOPRFid
  | invalidAKEid
  | invalidLength
  | invalidContext
deriving DecidableEq

/-- Model of `Configuration.verify`: the availability checks, in source order. The
registries (`hash.Hashing(·).Available()`, `ksf.Identifier(·).Available()`,
`oprf.Ciphersuite(·).Available()`, `group.Group(·).Available()`) are abstract
collaborator predicates. A zero KSF identifier skips the KSF check. -/
def verify (hashAvailable ksfAvailable oprfAvailable groupAvailable : Nat → Bool)
    (c : Configuration) : Option ConfigError :=
  if !hashAvailable c.kdf then some .invalidKDFid
  else if !hashAvailable c.mac then some .invalidMACid
  else if !hashAvailable c.hash then some .invalidHASHid
  else if c.ksf ≠ 0 && !ksfAvailable c.ksf then some .invalidKSFid
  else if !oprfAvailable c.oprf then some .invalidOPRFid
  else if !groupAvailable c.ake then some .invalidAKEid
  else none

/-- Model of `Configuration.toInternal`: runs `verify`, then builds the internal
parameters; `pointLength` abstracts `encoding.PointLength[·]`, `hashSize` and
`macSize` the hash registry sizes. `EnvelopeSize = NonceLen + MAC.Size()`. -/
def toInternal (hashAvailable ksfAvailable oprfAvailable groupAvailable : Nat → Bool)
    (pointLength hashSize macSize : Nat → Nat)
    (c : Configuration) : Except ConfigError Parameters :=
  match verify hashAvailable ksfAvailable oprfAvailable groupAvailable c with
  | some e => .error e
  | none =>
    .ok ⟨nonceLength, nonceLength + macSize c.mac,
         pointLength c.oprf, pointLength c.ake,
         hashSize c.hash, macSize c.mac, c.context⟩

/-- Model of `Configuration.Serialize`: the six identifier bytes
`OPRF ‖ KDF ‖ MAC ‖ Hash ‖ KSF ‖ AKE` followed by `EncodeVector(context)`. -/
def serializeConfiguration (c : Configuration) : List Nat :=
  [c.oprf % 256, c.kdf % 256, c.mac % 256, c.hash % 256, c.ksf % 256, c.ake % 256] ++
    encodeVector c.context

/-- Model of `DeserializeConfiguration`: requires at least `confLength + 2 = 8` bytes,
decodes the context vector from position 6 on, and takes the six identifiers
verbatim from the first six bytes. No identifier validation happens here. -/
def deserializeConfiguration (encoded : List Nat) : Except ConfigError Configuration :=
  if encoded.length < 6 + 2 then .error .invalidLength
  else
    match decodeVector (encoded.drop 6) with
    | none => .error .invalidContext
    | some (ctx, _) =>
      .ok ⟨encoded.getD 0 0, encoded.getD 1 0, encoded.getD 2 0,
           encoded.getD 3 0, encoded.getD 4 0, encoded.getD 5 0, ctx⟩

/-- Model of `GetFakeEnvelope`: panics (`none`) when the MAC identifier is not
registered, otherwise `make([]byte, internal.NonceLength + NewMac(MAC).Size())`,
a zero-filled byte string. -/
def getFakeEnvelope (hashAvailable : Nat → Bool) (macSize : Nat → Nat)
    (c : Configuration) : Option (List Nat) :=
  if !hashAvailable c.mac then none
  else some (List.replicate (nonceLength + macSize c.mac) 0)

/-! Section: Helper lemmas -/

/-- XOR-ing twice with the same pad recovers the common-length prefix. -/
theorem xorBytes_xorBytes (p : List Nat) :
    ∀ m : List Nat, xorBytes p (xorBytes p m) = m.take p.length := by
  induction p with
  | nil => intro m; simp [xorBytes]
  | cons a p ih =>
    intro m
    cases m with
    | nil => simp [xorBytes]
    | cons b m =>
      simp only [xorBytes, List.zipWith_cons_cons, List.take_succ_cons] at ih ⊢
      exact congrArg₂ List.cons (Nat.xor_cancel_left a b) (ih m)

/-! Section: Theorems -/

/-- C1 (counterexample): the claim says the info string passed to
`HKDF-Expand` is `I2OSP(L,2) || EncodeVector("OPAQUE-" || label) ||
EncodeVector(context)`. Instantiating the abstract `HKDF-Expand` with the
collaborator that returns its info argument, at `prk = ""`, `context = ""`,
`label = "server mac"`, `L = 64`, the info string `hkdfExpandLabel` passes
differs from the spec's. -/
theorem hkdfExpandLabel_spec_counterexample :
    hkdfExpandLabel (fun _ info _ => info) [] [] (strToBytes "server mac") 64 ≠
      specHkdfExpandLabelInfo 64 (strToBytes "server mac") [] := by
  decide

/-- C1 (amended): every key-schedule derivation passes the plain byte string
`"OPAQUE" || label` (no dash, no length prefix, no vector framing) as the info
argument of `HKDF-Expand`; the `context` argument of `hkdfExpandLabel` is
ignored, so `macKeys` expands with infos `"OPAQUEserver mac"` /
`"OPAQUEclient mac"` and `keySchedule` with infos `"OPAQUEhandshake secret"` /
`"OPAQUEsession secret"`, ignoring the hashed transcript entirely. -/
theorem hkdfExpandLabel_info_amended
    (expand : List Nat → List Nat → Nat → List Nat)
    (hashF : List Nat → List Nat)
    (secret context label ikm info hs : List Nat) (L outputSize : Nat) :
    hkdfExpandLabel expand secret context label L =
      expand secret (strToBytes "OPAQUE" ++ label) L ∧
    macKeys expand outputSize hs =
      (expand hs (strToBytes "OPAQUE" ++ strToBytes "server mac") outputSize,
       expand hs (strToBytes "OPAQUE" ++ strToBytes "client mac") outputSize) ∧
    keySchedule expand hashF outputSize ikm info =
      (expand ikm (strToBytes "OPAQUE" ++ strToBytes "handshake secret") outputSize,
       expand ikm (strToBytes "OPAQUE" ++ strToBytes "session secret") outputSize) := by
  exact ⟨rfl, rfl, rfl⟩

/-- C2: masking is a self-inverse XOR. For any `HKDF-Expand` collaborator that
returns the requested number of bytes, masking `pks || envelope` with
`MaskResponse` and unmasking with the client's pad recomputation recovers
exactly `pks` and the envelope; in particular applying `MaskResponse` twice
with the same key and nonce is the identity. -/
theorem maskResponse_self_inverse
    (expand : List Nat → List Nat → Nat → List Nat)
    (hexpand : ∀ key info L, (expand key info L).length = L)
    (p : Parameters) (key nonce pks env : List Nat)
    (hpks : pks.length = p.akePointLength)
    (henv : env.length = p.envelopeSize) :
    maskResponse expand p key nonce (maskResponse expand p key nonce (pks ++ env)) =
      pks ++ env ∧
    clientUnmask expand p.akePointLength p.envelopeSize key nonce
      (maskResponse expand p key nonce (pks ++ env)) = (pks, env) := by
  have hlen : (expand key (nonce ++ strToBytes "CredentialResponsePad")
      (p.akePointLength + p.envelopeSize)).length = (pks ++ env).length := by
    rw [hexpand, List.length_append, hpks, henv]
  have hclear : xorBytes
      (expand key (nonce ++ strToBytes "CredentialResponsePad")
        (p.akePointLength + p.envelopeSize))
      (maskResponse expand p key nonce (pks ++ env)) = pks ++ env := by
    unfold maskResponse
    rw [xorBytes_xorBytes, hlen, List.take_length]
  constructor
  · unfold maskResponse
    unfold maskResponse at hclear
    exact hclear
  · show (List.take p.akePointLength
        (xorBytes (expand key (nonce ++ strToBytes "CredentialResponsePad")
          (p.akePointLength + p.envelopeSize))
          (maskResponse expand p key nonce (pks ++ env))),
      List.drop p.akePointLength
        (xorBytes (expand key (nonce ++ strToBytes "CredentialResponsePad")
          (p.akePointLength + p.envelopeSize))
          (maskResponse expand p key nonce (pks ++ env)))) = (pks, env)
    rw [hclear, List.take_left' hpks, List.drop_left' hpks]

/-- C2 witness: a concrete instantiation of `maskResponse_self_inverse`. -/
theorem maskResponse_self_inverse_witness :
    maskResponse (fun _ _ L => List.replicate L 1) ⟨32, 1, 3, 2, 4, 1, []⟩ [9] [8]
      (maskResponse (fun _ _ L => List.replicate L 1) ⟨32, 1, 3, 2, 4, 1, []⟩ [9] [8]
        ([5, 6] ++ [7])) = [5, 6] ++ [7] ∧
    clientUnmask (fun _ _ L => List.replicate L 1) 2 1 [9] [8]
      (maskResponse (fun _ _ L => List.replicate L 1) ⟨32, 1, 3, 2, 4, 1, []⟩ [9] [8]
        ([5, 6] ++ [7])) = ([5, 6], [7]) := by
  exact maskResponse_self_inverse (fun _ _ L => List.replicate L 1)
    (fun _ _ L => List.length_replicate L 1) ⟨32, 1, 3, 2, 4, 1, []⟩ [9] [8]
    [5, 6] [7] (by decide) (by decide)

/-- C3: for every parameter set and input, each wire-message deserializer
succeeds exactly when the input length equals the fixed total length of that
message, and returns `InvalidMessageLength` exactly otherwise — so no
deserializer ever parses a proper prefix of a longer input. -/
theorem deserializers_exact_length (p : Parameters) (input : List Nat) :
    ((∃ m, deserializeRegistrationRequest p input = .ok m) ↔
      input.length = p.oprfPointLength) ∧
    (deserializeRegistrationRequest p input = .error .invalidMessageLength ↔
      input.length ≠ p.oprfPointLength) ∧
    ((∃ m, deserializeRegistrationResponse p input = .ok m) ↔
      input.length = p.oprfPointLength + p.akePointLength) ∧
    (deserializeRegistrationResponse p input = .error .invalidMessageLength ↔
      input.length ≠ p.oprfPointLength + p.akePointLength) ∧
    ((∃ m, deserializeRegistrationRecord p input = .ok m) ↔
      input.length = p.akePointLength + p.hashSize + p.envelopeSize) ∧
    (deserializeRegistrationRecord p input = .error .invalidMessageLength ↔
      input.length ≠ p.akePointLength + p.hashSize + p.envelopeSize) ∧
    ((∃ m, deserializeKE1 p input = .ok m) ↔
      input.length = p.oprfPointLength + p.nonceLen + p.akePointLength) ∧
    (deserializeKE1 p input = .error .invalidMessageLength ↔
      input.length ≠ p.oprfPointLength + p.nonceLen + p.akePointLength) ∧
    ((∃ m, deserializeKE2 p input = .ok m) ↔
      input.length = p.oprfPointLength + p.nonceLen + p.akePointLength +
        p.envelopeSize + p.nonceLen + p.akePointLength + p.macSize) ∧
    (deserializeKE2 p input = .error .invalidMessageLength ↔
      input.length ≠ p.oprfPointLength + p.nonceLen + p.akePointLength +
        p.envelopeSize + p.nonceLen + p.akePointLength + p.macSize) ∧
    ((∃ m, deserializeKE3 p input = .ok m) ↔ input.length = p.macSize) ∧
    (deserializeKE3 p input = .error .invalidMessageLength ↔
      input.length ≠ p.macSize) := by
  refine ⟨?_, ?_, ?_, ?_, ?_, ?_, ?_, ?_, ?_, ?_, ?_, ?_⟩ <;>
    simp only [deserializeRegistrationRequest, deserializeRegistrationResponse,
      deserializeRegistrationRecord, deserializeKE1, deserializeKE2,
      deserializeKE3] <;>
    split <;>
    simp_all

/-- C4: evaluated at the failing collaborator — a `HashToScalar` that returns
the zero scalar for every input — the `DeriveKey` retry loop neither
terminates with a scalar nor reaches the `panic("DeriveKeyPairError")` branch
within any number of iterations: the `uint8` counter wraps modulo 256, so the
`counter > 255` guard never fires and the loop runs forever, contrary to the
claim that it always terminates or panics after 255 tries. -/
theorem deriveKey_zero_scalar_loops_forever (fuel : Nat) :
    deriveKey (fun _ => 0) fuel = none := by
  have aux : ∀ f counter : Nat, counter < 256 →
      ∀ s : Option Nat, (s = none ∨ s = some 0) →
        deriveKeyRun (fun _ => 0) f counter s = none := by
    intro f
    induction f with
    | zero => intro counter _ s _; rfl
    | succ f ih =>
      intro counter hc s hs
      unfold deriveKeyRun
      rw [if_pos hs, if_neg (by omega)]
      exact ih ((counter + 1) % 256) (Nat.mod_lt _ (by omega)) (some 0) (Or.inr rfl)
  exact aux fuel 0 (by omega) none (Or.inl rfl)

/-- C5: whenever the server long-term scalar, the client ephemeral public key
and the client public key all decode successfully, the server-side 3DH input
keying material is the concatenation, in this order, of the encodings of
`esk_s · epk_u`, `sks · epk_u`, `esk_s · pkc`; with `Np`-byte canonical
encodings it is `3 · Np` bytes long. -/
theorem serverK3dh_concat (G : GroupModel) (esk sks epk gpk : Nat)
    (sk epku pku : List Nat) (Np : Nat)
    (hsk : G.decodeScalar sk = some sks)
    (hepk : G.decodeElement epku = some epk)
    (hpku : G.decodeElement pku = some gpk)
    (hbytes : ∀ x, (G.bytes x).length = Np) :
    serverK3dh G esk sk epku pku =
      some (G.bytes (G.mult esk epk) ++ G.bytes (G.mult sks epk) ++
        G.bytes (G.mult esk gpk)) ∧
    (G.bytes (G.mult esk epk) ++ G.bytes (G.mult sks epk) ++
      G.bytes (G.mult esk gpk)).length = Np + Np + Np := by
  constructor
  · unfold serverK3dh
    rw [hsk, hepk, hpku]
  · simp [hbytes]
    omega

/-- C5 witness: a concrete instantiation of `serverK3dh_concat`. -/
theorem serverK3dh_concat_witness :
    serverK3dh ⟨fun _ => some 2, fun _ => some 3, fun a b => a * b, fun x => [x]⟩
        5 [0] [0] [0] =
      some ([5 * 3] ++ [2 * 3] ++ [5 * 3]) ∧
    (([5 * 3] ++ [2 * 3] ++ [5 * 3]) : List Nat).length = 1 + 1 + 1 := by
  exact serverK3dh_concat
    ⟨fun _ => some 2, fun _ => some 3, fun a b => a * b, fun x => [x]⟩
    5 2 3 3 [0] [0] [0] 1 rfl rfl rfl (fun _ => rfl)

/-- C6: when the caller supplies no client identity, the identity used
defaults to the client public key, and when the caller supplies no server
identity it defaults to the server public key — in the server-side
`Metadata.Fill` (in either envelope mode, with both the credentials' and the
metadata's field absent) and in the client-side `AuthenticationFinalize`. -/
theorem identity_defaults (customIdentifier : Bool)
    (credsIdu credsIds mIdu mIds idc ids : Option (List Nat))
    (pku serverPublicKey pkc pks : List Nat) :
    (fillIdentities customIdentifier none credsIds none mIds pku serverPublicKey).1 =
      pku ∧
    (fillIdentities customIdentifier credsIdu none mIdu none pku serverPublicKey).2 =
      serverPublicKey ∧
    (clientFinalizeIdentities none ids pkc pks).1 = pkc ∧
    (clientFinalizeIdentities idc none pkc pks).2 = pks := by
  cases customIdentifier <;>
    simp [fillIdentities, clientFinalizeIdentities]

/-- C7: configuration validation succeeds exactly when the KDF, MAC, Hash,
KSF, OPRF-group and AKE-group identifiers are all registered (a zero KSF
identifier stands for the identity KSF and is registered); `toInternal`, and
with it client/server construction, succeeds under exactly the same
condition. -/
theorem verify_none_iff_registered
    (hashAvailable ksfAvailable oprfAvailable groupAvailable : Nat → Bool)
    (pointLength hashSize macSize : Nat → Nat) (c : Configuration) :
    (verify hashAvailable ksfAvailable oprfAvailable groupAvailable c = none ↔
      (hashAvailable c.kdf = true ∧ hashAvailable c.mac = true ∧
       hashAvailable c.hash = true ∧ (c.ksf = 0 ∨ ksfAvailable c.ksf = true) ∧
       oprfAvailable c.oprf = true ∧ groupAvailable c.ake = true)) ∧
    ((∃ params, toInternal hashAvailable ksfAvailable oprfAvailable groupAvailable
        pointLength hashSize macSize c = .ok params) ↔
      (hashAvailable c.kdf = true ∧ hashAvailable c.mac = true ∧
       hashAvailable c.hash = true ∧ (c.ksf = 0 ∨ ksfAvailable c.ksf = true) ∧
       oprfAvailable c.oprf = true ∧ groupAvailable c.ake = true)) := by
  have h1 : verify hashAvailable ksfAvailable oprfAvailable groupAvailable c = none ↔
      (hashAvailable c.kdf = true ∧ hashAvailable c.mac = true ∧
       hashAvailable c.hash = true ∧ (c.ksf = 0 ∨ ksfAvailable c.ksf = true) ∧
       oprfAvailable c.oprf = true ∧ groupAvailable c.ake = true) := by
    unfold verify
    split_ifs <;> simp_all <;> tauto
  have h2 : (∃ params, toInternal hashAvailable ksfAvailable oprfAvailable
      groupAvailable pointLength hashSize macSize c = .ok params) ↔
      verify hashAvailable ksfAvailable oprfAvailable groupAvailable c = none := by
    cases hv : verify hashAvailable ksfAvailable oprfAvailable groupAvailable c <;>
      simp [toInternal, hv]
  exact ⟨h1, h2.trans h1⟩

/-- C8: `Serialize` emits the six identifier bytes `OPRF ‖ KDF ‖ MAC ‖ Hash ‖
KSF ‖ AKE` followed by the length-prefixed context; deserializing a serialized
configuration (context at most 65535 bytes, single-byte identifiers) returns
an equal configuration; and inputs shorter than 8 bytes are rejected. -/
theorem configuration_roundtrip (c : Configuration) (b : List Nat)
    (hctx : c.context.length ≤ 65535)
    (ho : c.oprf < 256) (hk : c.kdf < 256) (hm : c.mac < 256)
    (hh : c.hash < 256) (hf : c.ksf < 256) (ha : c.ake < 256)
    (hb : b.length < 8) :
    serializeConfiguration c =
      [c.oprf, c.kdf, c.mac, c.hash, c.ksf, c.ake] ++
        i2osp2 c.context.length ++ c.context ∧
    deserializeConfiguration (serializeConfiguration c) = .ok c ∧
    deserializeConfiguration b = .error .invalidLength := by
  have hser : serializeConfiguration c =
      c.oprf :: c.kdf :: c.mac :: c.hash :: c.ksf :: c.ake ::
        (c.context.length / 256 % 256) :: (c.context.length % 256) :: c.context := by
    unfold serializeConfiguration encodeVector i2osp2
    rw [Nat.mod_eq_of_lt ho, Nat.mod_eq_of_lt hk, Nat.mod_eq_of_lt hm,
      Nat.mod_eq_of_lt hh, Nat.mod_eq_of_lt hf, Nat.mod_eq_of_lt ha]
    rfl
  have hL : c.context.length / 256 % 256 * 256 + c.context.length % 256 =
      c.context.length := by omega
  have hdecode : decodeVector ((c.context.length / 256 % 256) ::
      (c.context.length % 256) :: c.context) =
      some (c.context, 2 + c.context.length) := by
    simp only [decodeVector, hL]
    rw [if_neg (by omega)]
    rw [List.take_length]
  refine ⟨?_, ?_, ?_⟩
  · rw [hser]; rfl
  · have hdrop : List.drop 6 (c.oprf :: c.kdf :: c.mac :: c.hash :: c.ksf :: c.ake ::
        (c.context.length / 256 % 256) :: (c.context.length % 256) :: c.context) =
        (c.context.length / 256 % 256) :: (c.context.length % 256) :: c.context := by
      rfl
    unfold deserializeConfiguration
    rw [hser]
    rw [if_neg (by simp only [List.length_cons]; omega)]
    rw [hdrop, hdecode]
    rfl
  · unfold deserializeConfiguration
    rw [if_pos (by omega)]

/-- C8 witness: a concrete instantiation of `configuration_roundtrip`. -/
theorem configuration_roundtrip_witness :
    serializeConfiguration ⟨1, 7, 7, 7, 3, 1, [170]⟩ =
      [1, 7, 7, 7, 3, 1] ++ i2osp2 1 ++ [170] ∧
    deserializeConfiguration (serializeConfiguration ⟨1, 7, 7, 7, 3, 1, [170]⟩) =
      .ok ⟨1, 7, 7, 7, 3, 1, [170]⟩ ∧
    deserializeConfiguration [1, 2, 3] = .error .invalidLength := by
  exact configuration_roundtrip ⟨1, 7, 7, 7, 3, 1, [170]⟩ [1, 2, 3]
    (by decide) (by decide) (by decide) (by decide) (by decide) (by decide)
    (by decide) (by decide)

/-- C9: for every configuration whose MAC identifier is registered, the fake
envelope of the client-enumeration mitigation is all zero bytes, of length
`Ne = Nn + Nm` for the configuration's MAC. -/
theorem getFakeEnvelope_zero_filled (hashAvailable : Nat → Bool)
    (macSize : Nat → Nat) (c : Configuration)
    (hmac : hashAvailable c.mac = true) :
    getFakeEnvelope hashAvailable macSize c =
      some (List.replicate (nonceLength + macSize c.mac) 0) ∧
    ((getFakeEnvelope hashAvailable macSize c).getD []).length =
      nonceLength + macSize c.mac ∧
    ((getFakeEnvelope hashAvailable macSize c).getD []).all (· == 0) = true := by
  have h : getFakeEnvelope hashAvailable macSize c =
      some (List.replicate (nonceLength + macSize c.mac) 0) := by
    simp [getFakeEnvelope, hmac]
  refine ⟨h, ?_, ?_⟩
  · rw [h]
    simp
  · rw [h]
    simp only [Option.getD_some, List.all_eq_true]
    intro x hx
    simp [List.eq_of_mem_replicate hx]

/-- C9 witness: a concrete instantiation of `getFakeEnvelope_zero_filled`. -/
theorem getFakeEnvelope_zero_filled_witness :
    getFakeEnvelope (fun _ => true) (fun _ => 2) ⟨1, 7, 7, 7, 3, 1, []⟩ =
      some (List.replicate (nonceLength + 2) 0) ∧
    ((getFakeEnvelope (fun _ => true) (fun _ => 2)
      ⟨1, 7, 7, 7, 3, 1, []⟩).getD []).length = nonceLength + 2 ∧
    ((getFakeEnvelope (fun _ => true) (fun _ => 2)
      ⟨1, 7, 7, 7, 3, 1, []⟩).getD []).all (· == 0) = true := by
  exact getFakeEnvelope_zero_filled (fun _ => true) (fun _ => 2)
    ⟨1, 7, 7, 7, 3, 1, []⟩ rfl

/-- C10: `DeserializeConfiguration` validates no identifier: on any input of
length at least 8 whose tail from position 6 is a well-formed length-prefixed
vector it succeeds, returning the first six input bytes verbatim as the six
identifier fields — whatever their values. -/
theorem deserializeConfiguration_no_validation (b ctx : List Nat) (n : Nat)
    (hb : 8 ≤ b.length) (hv : decodeVector (b.drop 6) = some (ctx, n)) :
    deserializeConfiguration b =
      .ok ⟨b.getD 0 0, b.getD 1 0, b.getD 2 0, b.getD 3 0, b.getD 4 0,
        b.getD 5 0, ctx⟩ := by
  unfold deserializeConfiguration
  rw [if_neg (by omega), hv]

/-- C10 witness: deserializing eight unregistered identifier bytes succeeds
and returns them verbatim. -/
theorem deserializeConfiguration_no_validation_witness :
    deserializeConfiguration [200, 201, 202, 203, 204, 205, 0, 1, 99] =
      .ok ⟨200, 201, 202, 203, 204, 205, [99]⟩ := by
  exact deserializeConfiguration_no_validation
    [200, 201, 202, 203, 204, 205, 0, 1, 99] [99] 3 (by decide) (by decide)

end OpaqueProtocol
